import Mathlib

/-!
Shallow embedding of `opensearchmanager/curator.go` from the
go-opensearch-curator repository.

Modelling conventions:
* JSON values are the inductive `Jv`; response bodies are modelled as already
  parsed JSON values, and the raw body text read by `io.ReadAll` is their
  canonical serialization `renderJv`.
* `map[string]interface{}` is `GoMap`, an association list with unique keys
  maintained by `mapInsert` (Go map assignment semantics).
* The HTTP layer is explicit state passing: `St` carries the responses still
  to be delivered (`pending`, one per issued request, in order; an exhausted
  list behaves as a transport error), the trace of issued requests, and a
  clock stream for `time.Now`.
* Times are integers: seconds since Go's zero time (January 1, year 1, UTC),
  so Go's zero `time.Time` is `0`.  `AddDate(0, 0, -days)` is modelled as
  linear arithmetic (`- days*86400` seconds).
* Fallible Go calls return `Except String`; error wrapping with `fmt.Errorf`
  is string concatenation.
-/

inductive Jv where
  | null
  | bool (b : Bool)
  | num (n : Int)
  | str (s : String)
  | arr (elems : List Jv)
  | obj (fields : List (String × Jv))

/-- Escape one character for JSON string output (quote and backslash; control
characters are not modelled, no claim depends on them). -/
def escapeChar (c : Char) : String :=
  if c = '"' then "\\\"" else if c = '\\' then "\\\\" else String.singleton c

/-- Escape a string for JSON output. -/
def escapeStr (s : String) : String := String.join (s.data.map escapeChar)

mutual

/-- Canonical JSON serialization of a `Jv`; the raw body text that
`io.ReadAll(resp.Body)` yields for a response modelled by that value. -/
def renderJv : Jv → String
  | .null => "null"
  | .bool true => "true"
  | .bool false => "false"
  | .num n => toString n
  | .str s => "\"" ++ escapeStr s ++ "\""
  | .arr xs => "[" ++ renderArr xs ++ "]"
  | .obj fs => "\x7b" ++ renderObj fs ++ "\x7d"

/-- Serialize array elements, comma separated. -/
def renderArr : List Jv → String
  | [] => ""
  | [x] => renderJv x
  | x :: y :: rest => renderJv x ++ "," ++ renderArr (y :: rest)

/-- Serialize object fields, comma separated. -/
def renderObj : List (String × Jv) → String
  | [] => ""
  | [(k, v)] => "\"" ++ escapeStr k ++ "\":" ++ renderJv v
  | (k, v) :: f :: rest =>
      "\"" ++ escapeStr k ++ "\":" ++ renderJv v ++ "," ++ renderObj (f :: rest)

end

/-- `map[string]interface{}`: association list with unique keys. -/
abbrev GoMap := List (String × Jv)

/-- Go map assignment `m[k] = v`: replace the binding of `k` if present
(keeping its position), otherwise append. -/
def mapInsert : GoMap → String → Jv → GoMap
  | [], k, v => [(k, v)]
  | (k', v') :: rest, k, v =>
      if k' = k then (k', v) :: rest else (k', v') :: mapInsert rest k v

/-- Go map read `m[k]` returning whether the key is present. -/
def mapGet (m : GoMap) (k : String) : Option Jv := m.lookup k

/-- Go map read `m[k]` in value position: a missing key yields the zero value
of `interface{}`, which marshals as JSON `null`. -/
def goIndex (m : GoMap) (k : String) : Jv := (mapGet m k).getD Jv.null

/-- mergeSettings combina configurações de índices (curator.go:374): copy
`base` into a fresh map, then write every `override` entry over it. -/
def mergeSettings (base override : GoMap) : GoMap :=
  let result := base.foldl (fun acc kv => mapInsert acc kv.1 kv.2) []
  override.foldl (fun acc kv => mapInsert acc kv.1 kv.2) result

/-- Error kinds of `strconv.ParseInt`. -/
inductive NumErr where
  | badSyntax
  | outOfRange
deriving DecidableEq, Repr

/-- Range handling of `strconv.ParseInt` for bitSize 64: an in-range value is
returned as is; an out-of-range value is clamped to the int64 bound of its
sign with `ErrRange`. -/
def int64Clamp (v : Int) : Int × Option NumErr :=
  if v < -(2 ^ 63) then (-(2 ^ 63), some NumErr.outOfRange)
  else if (2 ^ 63 - 1 : Int) < v then (2 ^ 63 - 1, some NumErr.outOfRange)
  else (v, none)

/-- `strconv.ParseInt(s, 10, 64)`: returns the value together with the error
(`none` on success).  On a syntax error (empty digit string or a non-digit
character) the value is 0; on a range error the value is the saturated int64
bound of the appropriate sign. -/
def goParseInt64 (s : String) : Int × Option NumErr :=
  let cs := s.toList
  let sd : Bool × List Char :=
    match cs with
    | '+' :: rest => (false, rest)
    | '-' :: rest => (true, rest)
    | _ => (false, cs)
  if sd.2 = [] ∨ ¬ sd.2.all Char.isDigit then (0, some NumErr.badSyntax)
  else
    let mag : Nat := sd.2.foldl (fun acc c => acc * 10 + (c.toNat - 48)) 0
    int64Clamp (if sd.1 then -(mag : Int) else (mag : Int))

/-- Read exactly `n` decimal digits, accumulating their value. -/
def readDigitsAux : Nat → Nat → List Char → Option (Nat × List Char)
  | 0, acc, cs => some (acc, cs)
  | _ + 1, _, [] => none
  | n + 1, acc, c :: cs =>
      if c.isDigit then readDigitsAux n (acc * 10 + (c.toNat - 48)) cs else none

/-- Read exactly `n` decimal digits from the front of `cs`. -/
def readDigits (n : Nat) (cs : List Char) : Option (Nat × List Char) :=
  readDigitsAux n 0 cs

/-- Require a literal character. -/
def expectChar (c : Char) : List Char → Option (List Char)
  | [] => none
  | d :: rest => if d = c then some rest else none

/-- Skip an optional fractional-second field (`.` or `,` followed by at least
one digit), as Go's RFC3339 parsing accepts after the seconds element. -/
def skipFrac (cs : List Char) : List Char :=
  match cs with
  | c :: d :: rest =>
      if (c = '.' ∨ c = ',') ∧ d.isDigit then (d :: rest).dropWhile Char.isDigit
      else cs
  | _ => cs

/-- Parse the terminal timezone of an RFC3339 string: exactly `Z` or
`±hh:mm` with `hh ≤ 23`, `mm ≤ 59`; result is the offset in seconds. -/
def parseOffset (cs : List Char) : Option Int :=
  match cs with
  | ['Z'] => some 0
  | sign :: rest =>
      if sign = '+' ∨ sign = '-' then
        match readDigits 2 rest with
        | none => none
        | some (hh, r1) =>
          match expectChar ':' r1 with
          | none => none
          | some r2 =>
            match readDigits 2 r2 with
            | none => none
            | some (mm, r3) =>
              if r3 = [] ∧ hh ≤ 23 ∧ mm ≤ 59 then
                let off : Int := hh * 3600 + mm * 60
                some (if sign = '-' then -off else off)
              else none
      else none
  | [] => none

/-- Proleptic Gregorian leap-year test (as in Go's `time` package). -/
def isLeapYear (y : Nat) : Bool := decide ((y % 4 = 0 ∧ y % 100 ≠ 0) ∨ y % 400 = 0)

/-- Number of days in month `mo` of year `y`. -/
def daysInMonth (y mo : Nat) : Nat :=
  if mo = 2 then (if isLeapYear y then 29 else 28)
  else if mo = 4 ∨ mo = 6 ∨ mo = 9 ∨ mo = 11 then 30
  else 31

/-- Days elapsed in year `y` before the first day of month `mo` (1-based). -/
def daysBeforeMonth (y mo : Nat) : Nat :=
  let base := [0, 0, 31, 59, 90, 120, 151, 181, 212, 243, 273, 304, 334].getD mo 0
  base + (if 2 < mo ∧ isLeapYear y then 1 else 0)

/-- Days from January 1 of year 1 (Go's zero time) to the given civil date. -/
def daysSinceGoZero (y mo d : Nat) : Int :=
  365 * ((y : Int) - 1)
    + Int.fdiv ((y : Int) - 1) 4 - Int.fdiv ((y : Int) - 1) 100
    + Int.fdiv ((y : Int) - 1) 400
    + (daysBeforeMonth y mo : Int) + ((d : Int) - 1)

/-- Go `time.Parse(time.RFC3339, s)`: the strict RFC3339 layout
`YYYY-MM-DDTHH:MM:SS[.f+][Z|±hh:mm]`, with calendar validation; result is
seconds since Go's zero time (so the zero time is `0`), `none` on error. -/
def parseRFC3339 (s : String) : Option Int := do
  let cs := s.toList
  let (y, cs) ← readDigits 4 cs
  let cs ← expectChar '-' cs
  let (mo, cs) ← readDigits 2 cs
  let cs ← expectChar '-' cs
  let (d, cs) ← readDigits 2 cs
  let cs ← expectChar 'T' cs
  let (hh, cs) ← readDigits 2 cs
  let cs ← expectChar ':' cs
  let (mi, cs) ← readDigits 2 cs
  let cs ← expectChar ':' cs
  let (ss, cs) ← readDigits 2 cs
  let cs := skipFrac cs
  let off ← parseOffset cs
  if 1 ≤ mo ∧ mo ≤ 12 ∧ 1 ≤ d ∧ d ≤ daysInMonth y mo ∧ hh ≤ 23 ∧ mi ≤ 59 ∧ ss ≤ 59 then
    some (daysSinceGoZero y mo d * 86400 + ((hh * 3600 + mi * 60 + ss : Nat) : Int) - off)
  else none

/-- getEsc of `path/filepath`'s matcher: read one (possibly escaped) range
character of a character class; fails on a malformed class (`-` or `]` where
a range character is expected, a dangling escape, or nothing left after the
character). -/
def getEsc : List Char → Option (Char × List Char)
  | [] => none
  | c :: rest =>
      if c = '-' ∨ c = ']' then none
      else if c = '\\' then
        match rest with
        | [] => none
        | d :: rest2 => if rest2 = [] then none else some (d, rest2)
      else if rest = [] then none else some (c, rest)

/-- Character-class loop of `path/filepath`'s matcher: scan ranges of a class
against rune `r`, returning whether the class accepted `r` (negation already
applied) and the pattern remainder after the closing `]`; `none` on a
malformed class.  The first argument is fuel for structural recursion: every
iteration consumes at least one pattern character, so the fuel chosen at the
call site (`length + 1`) is never exhausted. -/
def classLoop (r : Char) : Nat → Bool → Bool → Nat → List Char → Option (Bool × List Char)
  | 0, _, _, _, _ => none
  | fuel + 1, neg, m, n, p =>
    match p with
    | [] => none
    | c :: rest =>
      if c = ']' ∧ 0 < n then some (m != neg, rest)
      else
        match getEsc (c :: rest) with
        | none => none
        | some (lo, p1) =>
          match p1 with
          | [] => none
          | d :: q =>
            if d = '-' then
              match getEsc q with
              | none => none
              | some (hi, p2) =>
                  classLoop r fuel neg (m || (decide (lo ≤ r) && decide (r ≤ hi))) (n + 1) p2
            else
              classLoop r fuel neg (m || (decide (lo ≤ r) && decide (r ≤ lo))) (n + 1) (d :: q)

/-- Entry point for a character class: strip an optional leading `^`
(negation) and run the range loop. -/
def classMatch (r : Char) (p : List Char) : Option (Bool × List Char) :=
  match p with
  | '^' :: rest => classLoop r (rest.length + 1) true false 0 rest
  | _ => classLoop r (p.length + 1) false false 0 p

/-- `filepath.Match(pattern, name)` on rune lists, returning only the `matched`
boolean (the Go caller discards the error, and a malformed pattern never
matches): `*` matches any run of non-separator runes, `?` one non-separator
rune, `[...]` a character class, `\` escapes.  The first argument is fuel for
structural recursion: every recursive call strictly shrinks pattern + string,
so the fuel chosen in `goMatchL` is never exhausted. -/
def goMatchF : Nat → List Char → List Char → Bool
  | 0, _, _ => false
  | fuel + 1, p, s =>
    match p, s with
    | [], s => s.isEmpty
    | '*' :: pr, [] => goMatchF fuel pr []
    | '*' :: pr, c :: sr =>
        goMatchF fuel pr (c :: sr) || ((c != '/') && goMatchF fuel ('*' :: pr) sr)
    | '?' :: pr, c :: sr => (c != '/') && goMatchF fuel pr sr
    | ['\\'], _ => false
    | '\\' :: d :: pr, c :: sr => (d == c) && goMatchF fuel pr sr
    | '[' :: pr, c :: sr =>
        match classMatch c pr with
        | some (ok, rest) => ok && goMatchF fuel rest sr
        | none => false
    | p0 :: pr, c :: sr => (p0 == c) && goMatchF fuel pr sr
    | _ :: _, [] => false

/-- `filepath.Match(pattern, name)` on rune lists. -/
def goMatchL (p s : List Char) : Bool := goMatchF (p.length + s.length + 1) p s

/-- `filepath.Match` on strings (matched result only). -/
def goMatchStr (pat name : String) : Bool := goMatchL pat.toList name.toList

/-- Wire record of the `_cat/indices` response decoded by `ListIndices`
(curator.go:64): all five fields are JSON strings; absent fields keep the
zero value `""`. -/
structure RawIndex where
  index : String
  status : String
  docsCount : String
  storeSize : String
  createTime : String
deriving DecidableEq, Repr

/-- Decode a JSON object field into a Go `string` struct field: an absent
field or JSON `null` leaves the zero value, a string is taken verbatim, any
other JSON type is an unmarshal type error.  Duplicate keys follow
`encoding/json`'s last-wins rule. -/
def jFieldStr (fields : List (String × Jv)) (name : String) : Except String String :=
  match fields.reverse.lookup name with
  | none => .ok ""
  | some .null => .ok ""
  | some (.str s) => .ok s
  | some _ => .error "json: cannot unmarshal value into Go string field"

/-- Decode one element of the catalog array into a `RawIndex`. -/
def decodeRawIndex : Jv → Except String RawIndex
  | .obj fields => do
      let i ← jFieldStr fields "index"
      let st ← jFieldStr fields "status"
      let dc ← jFieldStr fields "docs.count"
      let ss ← jFieldStr fields "store.size"
      let ct ← jFieldStr fields "creation.date.string"
      .ok ⟨i, st, dc, ss, ct⟩
  | .null => .ok ⟨"", "", "", "", ""⟩
  | _ => .error "json: cannot unmarshal value into Go struct"

/-- Decode the elements of the catalog array in order. -/
def decodeList : List Jv → Except String (List RawIndex)
  | [] => .ok []
  | x :: rest => do
      let r ← decodeRawIndex x
      let rs ← decodeList rest
      .ok (r :: rs)

/-- json.NewDecoder(resp.Body).Decode(&indices) of `ListIndices`: the body
must be a JSON array of records (or `null`, which leaves the nil slice). -/
def decodeRawIndices : Jv → Except String (List RawIndex)
  | .arr elems => decodeList elems
  | .null => .ok []
  | _ => .error "json: cannot unmarshal value into Go slice"

/-- IndexInfo representa informações básicas de um índice (curator.go:48). -/
structure IndexInfo where
  name : String
  status : String
  docsCount : Int
  storeSize : String
  createTime : Int
deriving DecidableEq, Repr

/-- Projection of a wire record into an `IndexInfo` (curator.go:77-89): the
document count comes from `strconv.ParseInt` with the error discarded, the
creation time from `time.Parse(time.RFC3339, ...)` with the error discarded
(zero time, i.e. `0`, on failure). -/
def rawToInfo (raw : RawIndex) : IndexInfo :=
  ⟨raw.index, raw.status, (goParseInt64 raw.docsCount).1, raw.storeSize,
    (parseRFC3339 raw.createTime).getD 0⟩

/-- An HTTP request as issued by `doRequest`: method, path (appended to the
endpoint), and optional JSON body. -/
structure HttpRequest where
  method : String
  path : String
  body : Option Jv

/-- An HTTP response: status code and body (as a parsed JSON value, see the
header comment). -/
structure HttpResponse where
  status : Nat
  body : Jv

/-- What the transport layer delivers for one request: a response, or a
transport-level error (connection refused, cancellation, ...). -/
abbrev RespOrErr := Except String HttpResponse

/-- Client state for one run: responses still to be delivered (in request
order; exhaustion behaves as a transport error), the trace of issued
requests, and the wall-clock stream for `time.Now` readings. -/
structure St where
  pending : List RespOrErr
  trace : List HttpRequest
  clock : Nat → Int
  clockIdx : Nat

/-- doRequest executa requisições HTTP (curator.go:35): records the issued
request and delivers the next pending response. -/
def doRequest (s : St) (method path : String) (body : Option Jv) : RespOrErr × St :=
  let s' : St := ⟨s.pending, s.trace ++ [⟨method, path, body⟩], s.clock, s.clockIdx⟩
  match s.pending with
  | [] => (.error "transport error", s')
  | r :: rest => (r, ⟨rest, s'.trace, s.clock, s.clockIdx⟩)

/-- `strings.HasPrefix(s, pre)` via character lists (structural, so it
evaluates definitionally). -/
def goHasPrefix (pre s : String) : Bool := pre.data.isPrefixOf s.data

/-- time.Now(): read the next value of the clock stream. -/
def timeNow (s : St) : Int × St :=
  (s.clock s.clockIdx, ⟨s.pending, s.trace, s.clock, s.clockIdx + 1⟩)

/-- The catalog request issued by `ListIndices`. -/
def listReq : HttpRequest := ⟨"GET", "/_cat/indices?format=json", none⟩

/-- ListIndices retorna todos os índices no cluster (curator.go:57).  Note
that the source never inspects `resp.StatusCode` here: the body is decoded
whatever the status. -/
def ListIndices (s : St) : Except String (List IndexInfo) × St :=
  match doRequest s "GET" "/_cat/indices?format=json" none with
  | (.error e, s') => (.error e, s')
  | (.ok resp, s') =>
    match decodeRawIndices resp.body with
    | .error e => (.error e, s')
    | .ok raws => (.ok (raws.map rawToInfo), s')

/-- DeleteIndices exclui índices com base em um padrão de nome
(curator.go:95). -/
def DeleteIndices (s : St) (indexPattern : String) : Except String Unit × St :=
  match ListIndices s with
  | (.error e, s1) => (.error e, s1)
  | (.ok indices, s1) =>
    let toDelete := (indices.filter (fun idx => goMatchStr indexPattern idx.name)).map
      (fun idx => idx.name)
    if toDelete = [] then (.error ("no indices match pattern: " ++ indexPattern), s1)
    else
      match doRequest s1 "DELETE" ("/" ++ String.intercalate "," toDelete) none with
      | (.error e, s2) => (.error e, s2)
      | (.ok resp, s2) =>
        if 400 ≤ resp.status then
          (.error ("failed to delete indices: " ++ renderJv resp.body), s2)
        else (.ok (), s2)

/-- AliasAction representa uma ação de alias (curator.go:129). -/
structure AliasAction where
  add : Option GoMap
  remove : Option GoMap

/-- json.Marshal of an `AliasAction`: both fields carry `omitempty`, so a nil
or empty map is omitted. -/
def aliasActionJv (a : AliasAction) : Jv :=
  Jv.obj
    ((match a.add with
      | some (kv :: rest) => [("add", Jv.obj (kv :: rest))]
      | _ => []) ++
      (match a.remove with
      | some (kv :: rest) => [("remove", Jv.obj (kv :: rest))]
      | _ => []))

/-- ManageAliases gerencia operações de alias (curator.go:135). -/
def ManageAliases (s : St) (actions : List AliasAction) : Except String Unit × St :=
  let body := Jv.obj [("actions", Jv.arr (actions.map aliasActionJv))]
  match doRequest s "POST" "/_aliases" (some body) with
  | (.error e, s') => (.error e, s')
  | (.ok resp, s') =>
    if 400 ≤ resp.status then
      (.error ("failed to manage aliases: " ++ renderJv resp.body), s')
    else (.ok (), s')

/-- Rollover executa uma operação de rollover em um alias (curator.go:177). -/
def Rollover (s : St) (aliasName : String) (conditions : GoMap) : Except String Unit × St :=
  let body := Jv.obj [("conditions", Jv.obj conditions)]
  match doRequest s "POST" ("/" ++ aliasName ++ "/_rollover") (some body) with
  | (.error e, s') => (.error e, s')
  | (.ok resp, s') =>
    if 400 ≤ resp.status then
      (.error ("failed to rollover index: " ++ renderJv resp.body), s')
    else (.ok (), s')

/-- Reindex executa uma operação de reindexação (curator.go:203). -/
def Reindex (s : St) (source dest : String) (query : GoMap) : Except String Unit × St :=
  let body := Jv.obj
    [("source", Jv.obj [("index", Jv.str source), ("query", Jv.obj query)]),
     ("dest", Jv.obj [("index", Jv.str dest)])]
  match doRequest s "POST" "/_reindex" (some body) with
  | (.error e, s') => (.error e, s')
  | (.ok resp, s') =>
    if 400 ≤ resp.status then
      (.error ("failed to reindex: " ++ renderJv resp.body), s')
    else (.ok (), s')

/-- CloseIndices fecha índices que correspondem a um padrão (curator.go:234). -/
def CloseIndices (s : St) (indexPattern : String) : Except String Unit × St :=
  match ListIndices s with
  | (.error e, s1) => (.error e, s1)
  | (.ok indices, s1) =>
    let toClose := (indices.filter (fun idx => goMatchStr indexPattern idx.name)).map
      (fun idx => idx.name)
    if toClose = [] then (.error ("no indices match pattern: " ++ indexPattern), s1)
    else
      match doRequest s1 "POST" ("/" ++ String.intercalate "," toClose ++ "/_close") none with
      | (.error e, s2) => (.error e, s2)
      | (.ok resp, s2) =>
        if 400 ≤ resp.status then
          (.error ("failed to close indices: " ++ renderJv resp.body), s2)
        else (.ok (), s2)

/-- CleanupByAge remove índices mais antigos que N dias (curator.go:268).
The cutoff `time.Now().AddDate(0, 0, -days)` is modelled as `now - days*86400`
seconds (see the header comment). -/
def CleanupByAge (s : St) (pre : String) (days : Int) : Except String Unit × St :=
  let ns := timeNow s
  let cutoff := ns.1 - days * 86400
  match ListIndices ns.2 with
  | (.error e, s1) => (.error e, s1)
  | (.ok indices, s1) =>
    let toDelete := (indices.filter
      (fun idx => goHasPrefix pre idx.name && decide (idx.createTime < cutoff))).map
      (fun idx => idx.name)
    if toDelete = [] then (.ok (), s1)
    else
      match doRequest s1 "DELETE" ("/" ++ String.intercalate "," toDelete) none with
      | (.error e, s2) => (.error e, s2)
      | (.ok resp, s2) =>
        if 400 ≤ resp.status then
          (.error ("failed to delete old indices: " ++ renderJv resp.body), s2)
        else (.ok (), s2)

/-- OpenIndex abre um índice fechado (curator.go:302). -/
def OpenIndex (s : St) (indexName : String) : Except String Unit × St :=
  match doRequest s "POST" ("/" ++ indexName ++ "/_open") none with
  | (.error e, s') => (.error e, s')
  | (.ok resp, s') =>
    if 400 ≤ resp.status then
      (.error ("failed to open index: " ++ renderJv resp.body), s')
    else (.ok (), s')

/-- UpdateIndexSettings atualiza as configurações de um índice
(curator.go:386). -/
def UpdateIndexSettings (s : St) (indexName : String) (settings : GoMap) :
    Except String Unit × St :=
  let body := Jv.obj [("settings", Jv.obj settings)]
  match doRequest s "PUT" ("/" ++ indexName ++ "/_settings") (some body) with
  | (.error e, s') => (.error e, s')
  | (.ok resp, s') =>
    if 400 ≤ resp.status then
      (.error ("failed to update settings: " ++ renderJv resp.body), s')
    else (.ok (), s')

/-- The merged settings that `ShrinkIndex` submits with the shrink request
(curator.go:326-330): caller settings with three forced overrides. -/
def shrinkSettings (settings : GoMap) : GoMap :=
  mergeSettings settings
    [("index.blocks.write", Jv.bool true),
     ("index.number_of_replicas", Jv.num 0),
     ("index.number_of_shards", goIndex settings "number_of_shards")]

/-- The final settings `ShrinkIndex` applies to the target
(curator.go:361-364): restore the caller's replica count, clear the
write-block. -/
def finalShrinkSettings (settings : GoMap) : GoMap :=
  [("index.number_of_replicas", goIndex settings "number_of_replicas"),
   ("index.blocks.write", Jv.null)]

/-- ShrinkIndex corrigido - agora com suporte completo (curator.go:318). -/
def ShrinkIndex (s : St) (source target : String) (settings : GoMap) :
    Except String Unit × St :=
  match CloseIndices s source with
  | (.error e, s1) => (.error ("failed to close source index: " ++ e), s1)
  | (.ok _, s1) =>
    let body := Jv.obj [("settings", Jv.obj (shrinkSettings settings))]
    match doRequest s1 "POST" ("/" ++ source ++ "/_shrink/" ++ target) (some body) with
    | (.error e, s2) => (.error ("failed to execute shrink request: " ++ e), s2)
    | (.ok resp, s2) =>
      if 400 ≤ resp.status then
        (.error ("shrink failed with status " ++ toString resp.status ++ ": "
          ++ renderJv resp.body), s2)
      else
        match OpenIndex s2 source with
        | (.error e, s3) => (.error ("failed to reopen source index: " ++ e), s3)
        | (.ok _, s3) =>
          match OpenIndex s3 target with
          | (.error e, s4) => (.error ("failed to open target index: " ++ e), s4)
          | (.ok _, s4) =>
            match UpdateIndexSettings s4 target (finalShrinkSettings settings) with
            | (.error e, s5) => (.error ("failed to apply final settings: " ++ e), s5)
            | (.ok _, s5) => (.ok (), s5)

/-- Catalog record (as served by the cluster) for an index with the given
name and creation-timestamp string. -/
def catRow (p : String × String) : Jv :=
  Jv.obj [("index", Jv.str p.1), ("creation.date.string", Jv.str p.2)]

/-- Catalog body listing the given (name, creation time) rows. -/
def catBody (rows : List (String × String)) : Jv := Jv.arr (rows.map catRow)

/-- A 200 catalog response listing the given rows. -/
def catResp (rows : List (String × String)) : RespOrErr := .ok ⟨200, catBody rows⟩

/-- The wire record a catalog row decodes to. -/
def rowRaw (p : String × String) : RawIndex := ⟨p.1, "", "", "", p.2⟩

/-- The `IndexInfo` a catalog row is projected to. -/
def mkInfo (p : String × String) : IndexInfo :=
  ⟨p.1, "", 0, "", (parseRFC3339 p.2).getD 0⟩

/-- Names of the listed rows matching a glob pattern, in listing order. -/
def matchedNames (pat : String) (rows : List (String × String)) : List String :=
  (rows.map Prod.fst).filter (fun n => goMatchStr pat n)

/-- Names of the listed rows selected by `CleanupByAge`: prefix match and
creation time strictly before the cutoff, in listing order. -/
def selectedNames (pre : String) (cut : Int) (rows : List (String × String)) : List String :=
  (rows.filter (fun p => goHasPrefix pre p.1 && decide ((parseRFC3339 p.2).getD 0 < cut))).map
    Prod.fst

/-- The bulk DELETE request for the given names. -/
def bulkDeleteReq (names : List String) : HttpRequest :=
  ⟨"DELETE", "/" ++ String.intercalate "," names, none⟩

/-- The bulk close request for the given names. -/
def bulkCloseReq (names : List String) : HttpRequest :=
  ⟨"POST", "/" ++ String.intercalate "," names ++ "/_close", none⟩

/-- The open request for one index. -/
def openReqOf (n : String) : HttpRequest := ⟨"POST", "/" ++ n ++ "/_open", none⟩

/-- The shrink-submit request with its merged settings body. -/
def shrinkReqOf (source target : String) (settings : GoMap) : HttpRequest :=
  ⟨"POST", "/" ++ source ++ "/_shrink/" ++ target,
    some (Jv.obj [("settings", Jv.obj (shrinkSettings settings))])⟩

/-- The settings-update request with its body. -/
def settingsReqOf (n : String) (settings : GoMap) : HttpRequest :=
  ⟨"PUT", "/" ++ n ++ "/_settings", some (Jv.obj [("settings", Jv.obj settings)])⟩

/-- Initial state with a plan of pending responses, an empty trace, and a
given clock. -/
def mkSt (pend : List RespOrErr) (cl : Nat → Int) (ci : Nat) : St := ⟨pend, [], cl, ci⟩

theorem decode_catBody (rows : List (String × String)) :
    decodeRawIndices (catBody rows) = .ok (rows.map rowRaw) := by
  have h : ∀ l : List (String × String), decodeList (l.map catRow) = .ok (l.map rowRaw) := by
    intro l
    induction l with
    | nil => rfl
    | cons p rest ih =>
        simp only [List.map_cons, decodeList, decodeRawIndex, catRow, jFieldStr,
          List.reverse_cons, List.reverse_nil, List.nil_append, List.cons_append,
          List.lookup, ih]
        rfl
  simp only [catBody, decodeRawIndices, h]

theorem listIndices_run (r : HttpResponse) (rest : List RespOrErr)
    (tr : List HttpRequest) (cl : Nat → Int) (ci : Nat) {raws : List RawIndex}
    (h : decodeRawIndices r.body = .ok raws) :
    ListIndices ⟨.ok r :: rest, tr, cl, ci⟩ =
      (.ok (raws.map rawToInfo), ⟨rest, tr ++ [listReq], cl, ci⟩) := by
  simp only [ListIndices, doRequest, h, listReq]

theorem listIndices_cat (rows : List (String × String)) (rest : List RespOrErr)
    (tr : List HttpRequest) (cl : Nat → Int) (ci : Nat) :
    ListIndices ⟨catResp rows :: rest, tr, cl, ci⟩ =
      (.ok (rows.map mkInfo), ⟨rest, tr ++ [listReq], cl, ci⟩) := by
  have h := listIndices_run (r := ⟨200, catBody rows⟩) rest tr cl ci (decode_catBody rows)
  simpa [List.map_map, Function.comp, catResp, rawToInfo, rowRaw, mkInfo] using h

theorem filter_match_names (pat : String) (rows : List (String × String)) :
    ((rows.map mkInfo).filter (fun idx => goMatchStr pat idx.name)).map
      (fun idx => idx.name) = matchedNames pat rows := by
  induction rows with
  | nil => rfl
  | cons p rest ih =>
      by_cases h : goMatchStr pat p.1
      · simp [matchedNames, mkInfo, List.filter, h] at ih ⊢
        exact ih
      · simp [matchedNames, mkInfo, List.filter, h] at ih ⊢
        exact ih

theorem filter_selected_names (pre : String) (cut : Int) (rows : List (String × String)) :
    ((rows.map mkInfo).filter
        (fun idx => goHasPrefix pre idx.name && decide (idx.createTime < cut))).map
      (fun idx => idx.name) = selectedNames pre cut rows := by
  induction rows with
  | nil => rfl
  | cons p rest ih =>
      by_cases h : (goHasPrefix pre p.1 && decide ((parseRFC3339 p.2).getD 0 < cut)) = true
      · simp [selectedNames, mkInfo, List.filter, h] at ih ⊢
        exact ih
      · simp [selectedNames, mkInfo, List.filter, h] at ih ⊢
        exact ih

theorem mapGet_cons (k0 : String) (v0 : Jv) (m : GoMap) (q : String) :
    mapGet ((k0, v0) :: m) q = if q = k0 then some v0 else mapGet m q := by
  by_cases h : q = k0
  · simp [mapGet, List.lookup_cons, h]
  · simp [mapGet, List.lookup_cons, beq_false_of_ne h, h]

theorem mapGet_mapInsert (m : GoMap) (k : String) (v : Jv) (q : String) :
    mapGet (mapInsert m k v) q = if q = k then some v else mapGet m q := by
  induction m with
  | nil => rw [show mapInsert [] k v = [(k, v)] from rfl, mapGet_cons]
  | cons p rest ih =>
      obtain ⟨k0, v0⟩ := p
      by_cases hk : k0 = k
      · subst hk
        rw [show mapInsert ((k0, v0) :: rest) k0 v = (k0, v) :: rest from by simp [mapInsert]]
        rw [mapGet_cons, mapGet_cons]
        by_cases h : q = k0 <;> simp [h]
      · rw [show mapInsert ((k0, v0) :: rest) k v = (k0, v0) :: mapInsert rest k v from by
          simp [mapInsert, hk]]
        by_cases h : q = k0
        · subst h
          rw [mapGet_cons, if_pos rfl, if_neg hk, mapGet_cons, if_pos rfl]
        · by_cases hq : q = k
          · subst hq
            rw [mapGet_cons, if_neg h, ih, if_pos rfl, if_pos rfl]
          · rw [mapGet_cons, if_neg h, ih, if_neg hq, if_neg hq, mapGet_cons, if_neg h]

theorem mapGet_eq_none_of_not_mem {m : GoMap} {k : String}
    (h : k ∉ m.map Prod.fst) : mapGet m k = none := by
  induction m with
  | nil => rfl
  | cons p rest ih =>
      obtain ⟨k0, v0⟩ := p
      simp only [List.map_cons, List.mem_cons] at h
      push_neg at h
      rw [mapGet_cons, if_neg h.1]
      exact ih h.2

theorem mapGet_foldl_insert (l : GoMap) (acc : GoMap)
    (hl : (l.map Prod.fst).Nodup) (k : String) :
    mapGet (l.foldl (fun a kv => mapInsert a kv.1 kv.2) acc) k =
      (mapGet l k).or (mapGet acc k) := by
  induction l generalizing acc with
  | nil => simp [mapGet, List.lookup, Option.or]
  | cons p rest ih =>
      obtain ⟨k0, v0⟩ := p
      simp only [List.map_cons, List.nodup_cons] at hl
      simp only [List.foldl_cons]
      rw [ih _ hl.2, mapGet_cons]
      by_cases h : k = k0
      · subst h
        rw [mapGet_eq_none_of_not_mem (by simpa using hl.1)]
        simp [mapGet_mapInsert, Option.or]
      · rw [if_neg h, mapGet_mapInsert, if_neg h]

theorem mapGet_mergeSettings (base ov : GoMap)
    (hb : (base.map Prod.fst).Nodup) (ho : (ov.map Prod.fst).Nodup) (k : String) :
    mapGet (mergeSettings base ov) k = (mapGet ov k).or (mapGet base k) := by
  unfold mergeSettings
  rw [mapGet_foldl_insert _ _ ho, mapGet_foldl_insert _ _ hb]
  cases hov : mapGet ov k <;> cases hbs : mapGet base k <;>
    simp [mapGet, List.lookup, Option.or]

theorem mapGet_shrinkSettings (settings : GoMap)
    (hs : (settings.map Prod.fst).Nodup) (k : String) :
    mapGet (shrinkSettings settings) k =
      if k = "index.blocks.write" then some (Jv.bool true)
      else if k = "index.number_of_replicas" then some (Jv.num 0)
      else if k = "index.number_of_shards" then some (goIndex settings "number_of_shards")
      else mapGet settings k := by
  have hov : ((([("index.blocks.write", Jv.bool true),
      ("index.number_of_replicas", Jv.num 0),
      ("index.number_of_shards", goIndex settings "number_of_shards")] : GoMap)).map
        Prod.fst).Nodup := by simp
  rw [shrinkSettings, mapGet_mergeSettings _ _ hs hov]
  by_cases h1 : k = "index.blocks.write"
  · subst h1
    simp [mapGet_cons, Option.or]
  · by_cases h2 : k = "index.number_of_replicas"
    · subst h2
      simp [mapGet_cons, Option.or, h1]
    · by_cases h3 : k = "index.number_of_shards"
      · subst h3
        simp [mapGet_cons, Option.or, h1, h2]
      · simp [mapGet_cons, Option.or, mapGet, List.lookup, beq_false_of_ne h1,
          beq_false_of_ne h2, beq_false_of_ne h3, h1, h2, h3]

/-- Outcome of one status-checked request: a transport error propagates
unwrapped, a status ≥ 400 fails with the prefixed raw body, otherwise ok. -/
def respOutcome (pre : String) : RespOrErr → Except String Unit
  | .error e => .error e
  | .ok resp =>
      if 400 ≤ resp.status then .error (pre ++ renderJv resp.body) else .ok ()

theorem deleteIndices_nomatch (rows : List (String × String)) (pat : String)
    (rest : List RespOrErr) (tr : List HttpRequest) (cl : Nat → Int) (ci : Nat)
    (hm : matchedNames pat rows = []) :
    DeleteIndices ⟨catResp rows :: rest, tr, cl, ci⟩ pat =
      (.error ("no indices match pattern: " ++ pat), ⟨rest, tr ++ [listReq], cl, ci⟩) := by
  simp only [DeleteIndices, listIndices_cat, filter_match_names]
  rw [if_pos hm]

theorem deleteIndices_run (rows : List (String × String)) (pat : String) (r2 : RespOrErr)
    (rest : List RespOrErr) (tr : List HttpRequest) (cl : Nat → Int) (ci : Nat)
    (hm : matchedNames pat rows ≠ []) :
    DeleteIndices ⟨catResp rows :: r2 :: rest, tr, cl, ci⟩ pat =
      (respOutcome "failed to delete indices: " r2,
        ⟨rest, tr ++ [listReq, bulkDeleteReq (matchedNames pat rows)], cl, ci⟩) := by
  simp only [DeleteIndices, listIndices_cat, filter_match_names, if_neg hm, doRequest]
  cases r2 with
  | error e => simp [respOutcome, bulkDeleteReq]
  | ok resp => by_cases h : 400 ≤ resp.status <;> simp [respOutcome, bulkDeleteReq, h]

theorem closeIndices_nomatch (rows : List (String × String)) (pat : String)
    (rest : List RespOrErr) (tr : List HttpRequest) (cl : Nat → Int) (ci : Nat)
    (hm : matchedNames pat rows = []) :
    CloseIndices ⟨catResp rows :: rest, tr, cl, ci⟩ pat =
      (.error ("no indices match pattern: " ++ pat), ⟨rest, tr ++ [listReq], cl, ci⟩) := by
  simp only [CloseIndices, listIndices_cat, filter_match_names]
  rw [if_pos hm]

theorem closeIndices_run (rows : List (String × String)) (pat : String) (r2 : RespOrErr)
    (rest : List RespOrErr) (tr : List HttpRequest) (cl : Nat → Int) (ci : Nat)
    (hm : matchedNames pat rows ≠ []) :
    CloseIndices ⟨catResp rows :: r2 :: rest, tr, cl, ci⟩ pat =
      (respOutcome "failed to close indices: " r2,
        ⟨rest, tr ++ [listReq, bulkCloseReq (matchedNames pat rows)], cl, ci⟩) := by
  simp only [CloseIndices, listIndices_cat, filter_match_names, if_neg hm, doRequest]
  cases r2 with
  | error e => simp [respOutcome, bulkCloseReq]
  | ok resp => by_cases h : 400 ≤ resp.status <;> simp [respOutcome, bulkCloseReq, h]

theorem cleanupByAge_empty (rows : List (String × String)) (pre : String) (days : Int)
    (rest : List RespOrErr) (tr : List HttpRequest) (cl : Nat → Int) (ci : Nat)
    (hm : selectedNames pre (cl ci - days * 86400) rows = []) :
    CleanupByAge ⟨catResp rows :: rest, tr, cl, ci⟩ pre days =
      (.ok (), ⟨rest, tr ++ [listReq], cl, ci + 1⟩) := by
  simp only [CleanupByAge, timeNow, listIndices_cat, filter_selected_names]
  rw [if_pos hm]

theorem cleanupByAge_run (rows : List (String × String)) (pre : String) (days : Int)
    (r2 : RespOrErr) (rest : List RespOrErr) (tr : List HttpRequest)
    (cl : Nat → Int) (ci : Nat)
    (hm : selectedNames pre (cl ci - days * 86400) rows ≠ []) :
    CleanupByAge ⟨catResp rows :: r2 :: rest, tr, cl, ci⟩ pre days =
      (respOutcome "failed to delete old indices: " r2,
        ⟨rest, tr ++ [listReq, bulkDeleteReq (selectedNames pre (cl ci - days * 86400) rows)],
          cl, ci + 1⟩) := by
  simp only [CleanupByAge, timeNow, listIndices_cat, filter_selected_names, if_neg hm,
    doRequest]
  cases r2 with
  | error e => simp [respOutcome, bulkDeleteReq]
  | ok resp => by_cases h : 400 ≤ resp.status <;> simp [respOutcome, bulkDeleteReq, h]

theorem shrinkIndex_close_err (s : St) (source target : String) (settings : GoMap)
    {e : String} {s' : St} (h : CloseIndices s source = (.error e, s')) :
    ShrinkIndex s source target settings =
      (.error ("failed to close source index: " ++ e), s') := by
  simp only [ShrinkIndex, h]

theorem shrinkIndex_nomatch (rows : List (String × String)) (source target : String)
    (settings : GoMap) (rest : List RespOrErr) (tr : List HttpRequest)
    (cl : Nat → Int) (ci : Nat) (hm : matchedNames source rows = []) :
    ShrinkIndex ⟨catResp rows :: rest, tr, cl, ci⟩ source target settings =
      (.error ("failed to close source index: no indices match pattern: " ++ source),
        ⟨rest, tr ++ [listReq], cl, ci⟩) := by
  exact shrinkIndex_close_err _ _ _ _
    (closeIndices_nomatch rows source rest tr cl ci hm)

theorem shrinkIndex_close_fail (rows : List (String × String)) (source target : String)
    (settings : GoMap) (rc : HttpResponse) (tr : List HttpRequest)
    (cl : Nat → Int) (ci : Nat) (hm : matchedNames source rows ≠ [])
    (hrc : 400 ≤ rc.status) :
    ShrinkIndex ⟨[catResp rows, .ok rc], tr, cl, ci⟩ source target settings =
      (.error ("failed to close source index: failed to close indices: "
          ++ renderJv rc.body),
        ⟨[], tr ++ [listReq, bulkCloseReq (matchedNames source rows)], cl, ci⟩) := by
  have hc := closeIndices_run rows source (.ok rc) [] tr cl ci hm
  rw [show respOutcome "failed to close indices: " (.ok rc) =
      .error ("failed to close indices: " ++ renderJv rc.body) from by
    simp [respOutcome, hrc]] at hc
  exact shrinkIndex_close_err _ _ _ _ hc

theorem shrinkIndex_submit_trace (rows : List (String × String)) (source target : String)
    (settings : GoMap) (rc : HttpResponse) (tr : List HttpRequest)
    (cl : Nat → Int) (ci : Nat) (hm : matchedNames source rows ≠ [])
    (hrc : rc.status < 400) :
    ShrinkIndex ⟨[catResp rows, .ok rc], tr, cl, ci⟩ source target settings =
      (.error "failed to execute shrink request: transport error",
        ⟨[], tr ++ [listReq, bulkCloseReq (matchedNames source rows),
          shrinkReqOf source target settings], cl, ci⟩) := by
  have hc := closeIndices_run rows source (.ok rc) [] tr cl ci hm
  rw [show respOutcome "failed to close indices: " (.ok rc) = .ok () from by
    simp [respOutcome, Nat.not_le.mpr hrc]] at hc
  simp only [ShrinkIndex, hc, doRequest, shrinkReqOf, List.append_assoc, List.cons_append,
    List.nil_append]
  rfl

theorem shrinkIndex_submit_fail (rows : List (String × String)) (source target : String)
    (settings : GoMap) (rc rs : HttpResponse) (tr : List HttpRequest)
    (cl : Nat → Int) (ci : Nat) (hm : matchedNames source rows ≠ [])
    (hrc : rc.status < 400) (hrs : 400 ≤ rs.status) :
    ShrinkIndex ⟨[catResp rows, .ok rc, .ok rs], tr, cl, ci⟩ source target settings =
      (.error ("shrink failed with status " ++ toString rs.status ++ ": "
          ++ renderJv rs.body),
        ⟨[], tr ++ [listReq, bulkCloseReq (matchedNames source rows),
          shrinkReqOf source target settings], cl, ci⟩) := by
  have hc := closeIndices_run rows source (.ok rc) [.ok rs] tr cl ci hm
  rw [show respOutcome "failed to close indices: " (.ok rc) = .ok () from by
    simp [respOutcome, Nat.not_le.mpr hrc]] at hc
  simp only [ShrinkIndex, hc, doRequest, shrinkReqOf, hrs, if_pos, List.append_assoc,
    List.cons_append, List.nil_append]

theorem shrinkIndex_reopen_fail (rows : List (String × String)) (source target : String)
    (settings : GoMap) (rc rs ro : HttpResponse) (tr : List HttpRequest)
    (cl : Nat → Int) (ci : Nat) (hm : matchedNames source rows ≠ [])
    (hrc : rc.status < 400) (hrs : rs.status < 400) (hro : 400 ≤ ro.status) :
    ShrinkIndex ⟨[catResp rows, .ok rc, .ok rs, .ok ro], tr, cl, ci⟩ source target settings =
      (.error ("failed to reopen source index: failed to open index: "
          ++ renderJv ro.body),
        ⟨[], tr ++ [listReq, bulkCloseReq (matchedNames source rows),
          shrinkReqOf source target settings, openReqOf source], cl, ci⟩) := by
  have hc := closeIndices_run rows source (.ok rc) [.ok rs, .ok ro] tr cl ci hm
  rw [show respOutcome "failed to close indices: " (.ok rc) = .ok () from by
    simp [respOutcome, Nat.not_le.mpr hrc]] at hc
  simp only [ShrinkIndex, hc, doRequest, OpenIndex, shrinkReqOf, openReqOf,
    Nat.not_le.mpr hrs, if_neg, hro, if_pos, List.append_assoc, List.cons_append,
    List.nil_append]
  simp [Nat.not_le.mpr hrs, hro]
  rw [← String.append_assoc]
  rfl

theorem shrinkIndex_happy (rows : List (String × String)) (source target : String)
    (settings : GoMap) (rc rs ro rt ru : HttpResponse) (tr : List HttpRequest)
    (cl : Nat → Int) (ci : Nat) (hm : matchedNames source rows ≠ [])
    (hrc : rc.status < 400) (hrs : rs.status < 400) (hro : ro.status < 400)
    (hrt : rt.status < 400) (hru : ru.status < 400) :
    ShrinkIndex ⟨[catResp rows, .ok rc, .ok rs, .ok ro, .ok rt, .ok ru], tr, cl, ci⟩
        source target settings =
      (.ok (), ⟨[], tr ++ [listReq, bulkCloseReq (matchedNames source rows),
          shrinkReqOf source target settings, openReqOf source, openReqOf target,
          settingsReqOf target (finalShrinkSettings settings)], cl, ci⟩) := by
  have hc := closeIndices_run rows source (.ok rc) [.ok rs, .ok ro, .ok rt, .ok ru]
    tr cl ci hm
  rw [show respOutcome "failed to close indices: " (.ok rc) = .ok () from by
    simp [respOutcome, Nat.not_le.mpr hrc]] at hc
  simp only [ShrinkIndex, hc, doRequest, OpenIndex, UpdateIndexSettings, shrinkReqOf,
    openReqOf, settingsReqOf, List.append_assoc, List.cons_append, List.nil_append]
  simp [Nat.not_le.mpr hrs, Nat.not_le.mpr hro, Nat.not_le.mpr hrt, Nat.not_le.mpr hru]

/-- C1, counterexample to the claim as stated: the claim asserts that every
public operation — "in particular ListIndices" — turns an HTTP status ≥ 400
into a failure carrying the raw response body; but `ListIndices`
(curator.go:57-92) never inspects `resp.StatusCode`: on a status-400 response
whose body is the JSON array `[]` it returns a successful empty listing
instead of any error. -/
theorem c1_counterexample :
    (ListIndices ⟨[.ok ⟨400, Jv.arr []⟩], [], fun _ => 0, 0⟩).1 =
      .ok ([] : List IndexInfo) := rfl

/-- C1, amended: whenever the HTTP response to the operation's own
status-checked request has status ≥ 400, each of DeleteIndices,
CloseIndices, CleanupByAge, ManageAliases, Rollover, Reindex, OpenIndex,
UpdateIndexSettings and ShrinkIndex returns a failure whose error carries the
raw response body text wrapped with an operation-identifying prefix;
ListIndices is the exception — it ignores the status code entirely (see the
counterexample). -/
theorem c1_amended :
    (∀ rows pat (r : HttpResponse) (cl : Nat → Int) (ci : Nat),
        matchedNames pat rows ≠ [] → 400 ≤ r.status →
        (DeleteIndices ⟨[catResp rows, .ok r], [], cl, ci⟩ pat).1 =
          .error ("failed to delete indices: " ++ renderJv r.body)) ∧
    (∀ rows pat (r : HttpResponse) (cl : Nat → Int) (ci : Nat),
        matchedNames pat rows ≠ [] → 400 ≤ r.status →
        (CloseIndices ⟨[catResp rows, .ok r], [], cl, ci⟩ pat).1 =
          .error ("failed to close indices: " ++ renderJv r.body)) ∧
    (∀ rows pre (days : Int) (r : HttpResponse) (cl : Nat → Int) (ci : Nat),
        selectedNames pre (cl ci - days * 86400) rows ≠ [] → 400 ≤ r.status →
        (CleanupByAge ⟨[catResp rows, .ok r], [], cl, ci⟩ pre days).1 =
          .error ("failed to delete old indices: " ++ renderJv r.body)) ∧
    (∀ (acts : List AliasAction) (r : HttpResponse) (cl : Nat → Int) (ci : Nat)
        (rest : List RespOrErr), 400 ≤ r.status →
        (ManageAliases ⟨.ok r :: rest, [], cl, ci⟩ acts).1 =
          .error ("failed to manage aliases: " ++ renderJv r.body)) ∧
    (∀ (al : String) (conds : GoMap) (r : HttpResponse) (cl : Nat → Int) (ci : Nat)
        (rest : List RespOrErr), 400 ≤ r.status →
        (Rollover ⟨.ok r :: rest, [], cl, ci⟩ al conds).1 =
          .error ("failed to rollover index: " ++ renderJv r.body)) ∧
    (∀ (src dst : String) (q : GoMap) (r : HttpResponse) (cl : Nat → Int) (ci : Nat)
        (rest : List RespOrErr), 400 ≤ r.status →
        (Reindex ⟨.ok r :: rest, [], cl, ci⟩ src dst q).1 =
          .error ("failed to reindex: " ++ renderJv r.body)) ∧
    (∀ (n : String) (r : HttpResponse) (cl : Nat → Int) (ci : Nat)
        (rest : List RespOrErr), 400 ≤ r.status →
        (OpenIndex ⟨.ok r :: rest, [], cl, ci⟩ n).1 =
          .error ("failed to open index: " ++ renderJv r.body)) ∧
    (∀ (n : String) (stg : GoMap) (r : HttpResponse) (cl : Nat → Int) (ci : Nat)
        (rest : List RespOrErr), 400 ≤ r.status →
        (UpdateIndexSettings ⟨.ok r :: rest, [], cl, ci⟩ n stg).1 =
          .error ("failed to update settings: " ++ renderJv r.body)) ∧
    (∀ rows (src tgt : String) (stg : GoMap) (rc r : HttpResponse)
        (cl : Nat → Int) (ci : Nat),
        matchedNames src rows ≠ [] → rc.status < 400 → 400 ≤ r.status →
        (ShrinkIndex ⟨[catResp rows, .ok rc, .ok r], [], cl, ci⟩ src tgt stg).1 =
          .error ("shrink failed with status " ++ toString r.status ++ ": "
            ++ renderJv r.body)) := by
  refine ⟨?_, ?_, ?_, ?_, ?_, ?_, ?_, ?_, ?_⟩
  · intro rows pat r cl ci hm h
    rw [deleteIndices_run rows pat (.ok r) [] [] cl ci hm]
    simp [respOutcome, h]
  · intro rows pat r cl ci hm h
    rw [closeIndices_run rows pat (.ok r) [] [] cl ci hm]
    simp [respOutcome, h]
  · intro rows pre days r cl ci hm h
    rw [cleanupByAge_run rows pre days (.ok r) [] [] cl ci hm]
    simp [respOutcome, h]
  · intro acts r cl ci rest h
    simp [ManageAliases, doRequest, h]
  · intro al conds r cl ci rest h
    simp [Rollover, doRequest, h]
  · intro src dst q r cl ci rest h
    simp [Reindex, doRequest, h]
  · intro n r cl ci rest h
    simp [OpenIndex, doRequest, h]
  · intro n stg r cl ci rest h
    simp [UpdateIndexSettings, doRequest, h]
  · intro rows src tgt stg rc r cl ci hm hrc h
    rw [shrinkIndex_submit_fail rows src tgt stg rc r [] cl ci hm hrc h]

/-- C1, witness: the amended theorem applied at concrete inputs (a one-index
catalog, a 400 response with body `"boom"`). -/
theorem c1_amended_witness :
    (DeleteIndices ⟨[catResp [("idx", "")], .ok ⟨400, Jv.str "boom"⟩], [],
        fun _ => 0, 0⟩ "idx").1 =
      .error ("failed to delete indices: " ++ renderJv (Jv.str "boom")) ∧
    (CloseIndices ⟨[catResp [("idx", "")], .ok ⟨400, Jv.str "boom"⟩], [],
        fun _ => 0, 0⟩ "idx").1 =
      .error ("failed to close indices: " ++ renderJv (Jv.str "boom")) ∧
    (CleanupByAge ⟨[catResp [("logs-a", "1970-01-01T00:00:00Z")],
        .ok ⟨400, Jv.str "boom"⟩], [], fun _ => 62135596800 + 86400 * 40, 0⟩
        "logs-" 30).1 =
      .error ("failed to delete old indices: " ++ renderJv (Jv.str "boom")) ∧
    (ManageAliases ⟨[.ok ⟨400, Jv.str "boom"⟩], [], fun _ => 0, 0⟩ []).1 =
      .error ("failed to manage aliases: " ++ renderJv (Jv.str "boom")) ∧
    (Rollover ⟨[.ok ⟨400, Jv.str "boom"⟩], [], fun _ => 0, 0⟩ "a" []).1 =
      .error ("failed to rollover index: " ++ renderJv (Jv.str "boom")) ∧
    (Reindex ⟨[.ok ⟨400, Jv.str "boom"⟩], [], fun _ => 0, 0⟩ "s" "d" []).1 =
      .error ("failed to reindex: " ++ renderJv (Jv.str "boom")) ∧
    (OpenIndex ⟨[.ok ⟨400, Jv.str "boom"⟩], [], fun _ => 0, 0⟩ "i").1 =
      .error ("failed to open index: " ++ renderJv (Jv.str "boom")) ∧
    (UpdateIndexSettings ⟨[.ok ⟨400, Jv.str "boom"⟩], [], fun _ => 0, 0⟩ "i" []).1 =
      .error ("failed to update settings: " ++ renderJv (Jv.str "boom")) ∧
    (ShrinkIndex ⟨[catResp [("idx", "")], .ok ⟨200, Jv.null⟩,
        .ok ⟨400, Jv.str "boom"⟩], [], fun _ => 0, 0⟩ "idx" "t" []).1 =
      .error ("shrink failed with status " ++ toString (400 : Nat) ++ ": "
        ++ renderJv (Jv.str "boom")) :=
  ⟨c1_amended.1 _ _ _ _ _ (by decide) (by decide),
   c1_amended.2.1 _ _ _ _ _ (by decide) (by decide),
   c1_amended.2.2.1 _ _ _ _ _ _ (by decide) (by decide),
   c1_amended.2.2.2.1 _ _ _ _ _ (by decide),
   c1_amended.2.2.2.2.1 _ _ _ _ _ _ (by decide),
   c1_amended.2.2.2.2.2.1 _ _ _ _ _ _ _ (by decide),
   c1_amended.2.2.2.2.2.2.1 _ _ _ _ _ (by decide),
   c1_amended.2.2.2.2.2.2.2.1 _ _ _ _ _ _ (by decide),
   c1_amended.2.2.2.2.2.2.2.2 _ _ _ _ _ _ _ _ (by decide) (by decide) (by decide)⟩

/-- C2: ShrinkIndex step sequencing.  (1) Whenever the close-source step
fails, the workflow aborts with the wrapped error and issues nothing further
— in particular no shrink request.  (2) With a failure injected at the close
request, the full trace is exactly the listing and one close request: one
close attempt, no shrink, no reopen, no settings update.  (3) With a failure
injected at the shrink-submit step, the trace is exactly listing, one close,
one shrink submit: no reopen request, so the source index is left closed.
(4) With success through submit and a failure injected at reopen-source, the
trace is exactly listing, one close, one shrink submit, one (failed) reopen
attempt: no final-settings-update request is issued. -/
theorem c2_shrink_sequencing :
    (∀ (s : St) (source target : String) (stg : GoMap) (e : String) (s' : St),
        CloseIndices s source = (.error e, s') →
        ShrinkIndex s source target stg =
          (.error ("failed to close source index: " ++ e), s')) ∧
    (∀ rows (source target : String) (stg : GoMap) (rc : HttpResponse)
        (cl : Nat → Int) (ci : Nat),
        matchedNames source rows ≠ [] → 400 ≤ rc.status →
        ShrinkIndex ⟨[catResp rows, .ok rc], [], cl, ci⟩ source target stg =
          (.error ("failed to close source index: failed to close indices: "
              ++ renderJv rc.body),
            ⟨[], [listReq, bulkCloseReq (matchedNames source rows)], cl, ci⟩)) ∧
    (∀ rows (source target : String) (stg : GoMap) (rc rs : HttpResponse)
        (cl : Nat → Int) (ci : Nat),
        matchedNames source rows ≠ [] → rc.status < 400 → 400 ≤ rs.status →
        ShrinkIndex ⟨[catResp rows, .ok rc, .ok rs], [], cl, ci⟩ source target stg =
          (.error ("shrink failed with status " ++ toString rs.status ++ ": "
              ++ renderJv rs.body),
            ⟨[], [listReq, bulkCloseReq (matchedNames source rows),
              shrinkReqOf source target stg], cl, ci⟩)) ∧
    (∀ rows (source target : String) (stg : GoMap) (rc rs ro : HttpResponse)
        (cl : Nat → Int) (ci : Nat),
        matchedNames source rows ≠ [] → rc.status < 400 → rs.status < 400 →
        400 ≤ ro.status →
        ShrinkIndex ⟨[catResp rows, .ok rc, .ok rs, .ok ro], [], cl, ci⟩
            source target stg =
          (.error ("failed to reopen source index: failed to open index: "
              ++ renderJv ro.body),
            ⟨[], [listReq, bulkCloseReq (matchedNames source rows),
              shrinkReqOf source target stg, openReqOf source], cl, ci⟩)) := by
  refine ⟨fun s source target stg e s' h => shrinkIndex_close_err s source target stg h,
    ?_, ?_, ?_⟩
  · intro rows source target stg rc cl ci hm hrc
    simpa using shrinkIndex_close_fail rows source target stg rc [] cl ci hm hrc
  · intro rows source target stg rc rs cl ci hm hrc hrs
    simpa using shrinkIndex_submit_fail rows source target stg rc rs [] cl ci hm hrc hrs
  · intro rows source target stg rc rs ro cl ci hm hrc hrs hro
    simpa using
      shrinkIndex_reopen_fail rows source target stg rc rs ro [] cl ci hm hrc hrs hro

/-- C2, witness: each sequencing conjunct applied at concrete inputs. -/
theorem c2_shrink_sequencing_witness :
    ShrinkIndex ⟨[], [], fun _ => 0, 0⟩ "p" "t" [] =
      (.error ("failed to close source index: " ++ "transport error"),
        ⟨[], [listReq], fun _ => 0, 0⟩) ∧
    ShrinkIndex ⟨[catResp [("idx", "")], .ok ⟨403, Jv.null⟩], [], fun _ => 0, 0⟩
        "idx" "t" [] =
      (.error ("failed to close source index: failed to close indices: "
          ++ renderJv Jv.null),
        ⟨[], [listReq, bulkCloseReq (matchedNames "idx" [("idx", "")])],
          fun _ => 0, 0⟩) ∧
    ShrinkIndex ⟨[catResp [("idx", "")], .ok ⟨200, Jv.null⟩, .ok ⟨500, Jv.null⟩],
        [], fun _ => 0, 0⟩ "idx" "t" [] =
      (.error ("shrink failed with status " ++ toString (500 : Nat) ++ ": "
          ++ renderJv Jv.null),
        ⟨[], [listReq, bulkCloseReq (matchedNames "idx" [("idx", "")]),
          shrinkReqOf "idx" "t" []], fun _ => 0, 0⟩) ∧
    ShrinkIndex ⟨[catResp [("idx", "")], .ok ⟨200, Jv.null⟩, .ok ⟨200, Jv.null⟩,
        .ok ⟨404, Jv.null⟩], [], fun _ => 0, 0⟩ "idx" "t" [] =
      (.error ("failed to reopen source index: failed to open index: "
          ++ renderJv Jv.null),
        ⟨[], [listReq, bulkCloseReq (matchedNames "idx" [("idx", "")]),
          shrinkReqOf "idx" "t" [], openReqOf "idx"], fun _ => 0, 0⟩) :=
  ⟨c2_shrink_sequencing.1 _ "p" "t" [] "transport error" _ rfl,
   c2_shrink_sequencing.2.1 _ "idx" "t" [] _ _ _ (by decide) (by decide),
   c2_shrink_sequencing.2.2.1 _ "idx" "t" [] _ _ _ _ (by decide) (by decide) (by decide),
   c2_shrink_sequencing.2.2.2 _ "idx" "t" [] _ _ _ _ _ (by decide) (by decide)
     (by decide) (by decide)⟩

/-- C3: the settings body submitted with the shrink request is exactly
`shrinkSettings stg` (part 1: the shrink-submit request carries it), and
`shrinkSettings stg` is the caller's mapping with exactly three keys
force-overridden — write-block true, replicas 0, shard count taken from the
caller's `number_of_shards` value — all other keys passing through unchanged
and the overrides winning whatever the caller supplied (part 2, the
key-by-key characterization; keys of a Go map are unique, whence the Nodup
hypothesis). -/
theorem c3_shrink_settings_override :
    (∀ rows (source target : String) (stg : GoMap) (rc : HttpResponse)
        (cl : Nat → Int) (ci : Nat),
        matchedNames source rows ≠ [] → rc.status < 400 →
        (ShrinkIndex ⟨[catResp rows, .ok rc], [], cl, ci⟩ source target stg).2.trace =
          [listReq, bulkCloseReq (matchedNames source rows),
            ⟨"POST", "/" ++ source ++ "/_shrink/" ++ target,
              some (Jv.obj [("settings", Jv.obj (shrinkSettings stg))])⟩]) ∧
    (∀ stg : GoMap, (stg.map Prod.fst).Nodup → ∀ k,
        mapGet (shrinkSettings stg) k =
          if k = "index.blocks.write" then some (Jv.bool true)
          else if k = "index.number_of_replicas" then some (Jv.num 0)
          else if k = "index.number_of_shards" then
            some (goIndex stg "number_of_shards")
          else mapGet stg k) := by
  refine ⟨?_, fun stg hs k => mapGet_shrinkSettings stg hs k⟩
  intro rows source target stg rc cl ci hm hrc
  rw [shrinkIndex_submit_trace rows source target stg rc [] cl ci hm hrc]
  simp [shrinkReqOf]

/-- C3, witness: the submit part at a one-index catalog, and the key-by-key
characterization at a concrete caller mapping, evaluated at the four kinds of
keys (the three overridden ones and a passthrough key). -/
theorem c3_shrink_settings_override_witness :
    (ShrinkIndex ⟨[catResp [("idx", "")], .ok ⟨200, Jv.null⟩], [], fun _ => 0, 0⟩
        "idx" "t" [("number_of_shards", Jv.num 1)]).2.trace =
      [listReq, bulkCloseReq (matchedNames "idx" [("idx", "")]),
        ⟨"POST", "/" ++ "idx" ++ "/_shrink/" ++ "t",
          some (Jv.obj [("settings",
            Jv.obj (shrinkSettings [("number_of_shards", Jv.num 1)]))])⟩] ∧
    mapGet (shrinkSettings [("index.blocks.write", Jv.bool false),
        ("number_of_shards", Jv.num 4)]) "index.blocks.write" =
      some (Jv.bool true) ∧
    mapGet (shrinkSettings [("index.blocks.write", Jv.bool false),
        ("number_of_shards", Jv.num 4)]) "index.number_of_shards" =
      some (goIndex [("index.blocks.write", Jv.bool false),
        ("number_of_shards", Jv.num 4)] "number_of_shards") ∧
    mapGet (shrinkSettings [("index.blocks.write", Jv.bool false),
        ("number_of_shards", Jv.num 4)]) "number_of_shards" =
      mapGet [("index.blocks.write", Jv.bool false),
        ("number_of_shards", Jv.num 4)] "number_of_shards" :=
  ⟨c3_shrink_settings_override.1 _ "idx" "t" _ _ _ _ (by decide) (by decide),
   (c3_shrink_settings_override.2 _ (by decide) "index.blocks.write").trans rfl,
   (c3_shrink_settings_override.2 _ (by decide) "index.number_of_shards").trans rfl,
   (c3_shrink_settings_override.2 _ (by decide) "number_of_shards").trans rfl⟩

/-- C4: for a pattern with zero matching listed index names, DeleteIndices
and CloseIndices fail with the "no match" error naming the pattern, and the
full request trace is exactly the catalog listing — no bulk delete/close
request is issued. -/
theorem c4_no_match :
    (∀ rows (pat : String) (rest : List RespOrErr) (cl : Nat → Int) (ci : Nat),
        matchedNames pat rows = [] →
        DeleteIndices ⟨catResp rows :: rest, [], cl, ci⟩ pat =
          (.error ("no indices match pattern: " ++ pat),
            ⟨rest, [listReq], cl, ci⟩)) ∧
    (∀ rows (pat : String) (rest : List RespOrErr) (cl : Nat → Int) (ci : Nat),
        matchedNames pat rows = [] →
        CloseIndices ⟨catResp rows :: rest, [], cl, ci⟩ pat =
          (.error ("no indices match pattern: " ++ pat),
            ⟨rest, [listReq], cl, ci⟩)) := by
  constructor
  · intro rows pat rest cl ci hm
    simpa using deleteIndices_nomatch rows pat rest [] cl ci hm
  · intro rows pat rest cl ci hm
    simpa using closeIndices_nomatch rows pat rest [] cl ci hm

/-- C4, witness: a listed index `a` and the non-matching pattern `b`. -/
theorem c4_no_match_witness :
    DeleteIndices ⟨[catResp [("a", "")]], [], fun _ => 0, 0⟩ "b" =
      (.error ("no indices match pattern: " ++ "b"),
        ⟨[], [listReq], fun _ => 0, 0⟩) ∧
    CloseIndices ⟨[catResp [("a", "")]], [], fun _ => 0, 0⟩ "b" =
      (.error ("no indices match pattern: " ++ "b"),
        ⟨[], [listReq], fun _ => 0, 0⟩) :=
  ⟨c4_no_match.1 _ "b" [] _ _ (by decide), c4_no_match.2 _ "b" [] _ _ (by decide)⟩

/-- C5: for a pattern with at least one match, DeleteIndices (resp.
CloseIndices) issues exactly one bulk request after the listing — the whole
trace is the listing plus that single bulk request — and its path names
exactly the matched index names, comma-joined, in listing order
(`matchedNames` preserves the catalog order).  The delivered response `r2` is
arbitrary, so this holds on the success and the failure path alike. -/
theorem c5_bulk_request :
    (∀ rows (pat : String) (r2 : RespOrErr) (cl : Nat → Int) (ci : Nat),
        matchedNames pat rows ≠ [] →
        (DeleteIndices ⟨[catResp rows, r2], [], cl, ci⟩ pat).2.trace =
          [listReq, bulkDeleteReq (matchedNames pat rows)]) ∧
    (∀ rows (pat : String) (r2 : RespOrErr) (cl : Nat → Int) (ci : Nat),
        matchedNames pat rows ≠ [] →
        (CloseIndices ⟨[catResp rows, r2], [], cl, ci⟩ pat).2.trace =
          [listReq, bulkCloseReq (matchedNames pat rows)]) := by
  constructor
  · intro rows pat r2 cl ci hm
    rw [deleteIndices_run rows pat r2 [] [] cl ci hm]
    rfl
  · intro rows pat r2 cl ci hm
    rw [closeIndices_run rows pat r2 [] [] cl ci hm]
    rfl

/-- C5, witness: pattern `[ab]` over catalog `a, b, c` matches `a` and `b`;
one bulk request naming `a,b` in listing order. -/
theorem c5_bulk_request_witness :
    (DeleteIndices ⟨[catResp [("a", ""), ("b", ""), ("c", "")], .ok ⟨200, Jv.null⟩],
        [], fun _ => 0, 0⟩ "[ab]").2.trace =
      [listReq, bulkDeleteReq (matchedNames "[ab]" [("a", ""), ("b", ""), ("c", "")])] ∧
    (CloseIndices ⟨[catResp [("a", ""), ("b", ""), ("c", "")], .ok ⟨200, Jv.null⟩],
        [], fun _ => 0, 0⟩ "[ab]").2.trace =
      [listReq, bulkCloseReq (matchedNames "[ab]" [("a", ""), ("b", ""), ("c", "")])] ∧
    matchedNames "[ab]" [("a", ""), ("b", ""), ("c", "")] = ["a", "b"] :=
  ⟨c5_bulk_request.1 _ "[ab]" _ _ _ (by decide),
   c5_bulk_request.2 _ "[ab]" _ _ _ (by decide), by decide⟩

theorem doRequest_snd_clockIdx {s : St} {m p : String} {b : Option Jv}
    {r : RespOrErr} {s' : St} (h : doRequest s m p b = (r, s')) :
    s'.clockIdx = s.clockIdx := by
  obtain ⟨pend, tr, cl, ci⟩ := s
  cases pend with
  | nil => cases h; rfl
  | cons x rest => cases h; rfl

theorem listIndices_snd_clockIdx {s : St} {r : Except String (List IndexInfo)}
    {s' : St} (h : ListIndices s = (r, s')) : s'.clockIdx = s.clockIdx := by
  obtain ⟨pend, tr, cl, ci⟩ := s
  cases pend with
  | nil => cases h; rfl
  | cons x rest =>
      cases x with
      | error e => cases h; rfl
      | ok resp =>
          simp only [ListIndices, doRequest] at h
          cases hd : decodeRawIndices resp.body with
          | error e => rw [hd] at h; cases h; rfl
          | ok raws => rw [hd] at h; cases h; rfl

theorem cleanupByAge_clockIdx (s : St) (pre : String) (days : Int) :
    ((CleanupByAge s pre days).2).clockIdx = s.clockIdx + 1 := by
  unfold CleanupByAge
  simp only [timeNow]
  split
  · rename_i e s1 heq
    exact listIndices_snd_clockIdx heq
  · rename_i indices s1 heq
    have h1 : s1.clockIdx = s.clockIdx + 1 := listIndices_snd_clockIdx heq
    split
    · exact h1
    · split
      · rename_i e2 s2 heq2
        exact (doRequest_snd_clockIdx heq2).trans h1
      · rename_i resp s2 heq2
        split
        · exact (doRequest_snd_clockIdx heq2).trans h1
        · exact (doRequest_snd_clockIdx heq2).trans h1

/-- C6: CleanupByAge reads the wall clock exactly once, at call start — the
final clock index is the initial one plus one, and the cutoff used below is
the reading at the initial index, taken before the listing request (part 1).
The indices it deletes are exactly those whose name starts with the prefix
AND whose creation time is strictly before `now − days` (part 2: the single
bulk delete request names exactly `selectedNames pre (clock ci − days·86400)
rows`, the cutoff being the call-start reading).  When that selection is
empty the call returns success (no error) and the trace is the listing alone
— no delete request is issued (part 3). -/
theorem c6_cleanup_by_age :
    (∀ (s : St) (pre : String) (days : Int),
        ((CleanupByAge s pre days).2).clockIdx = s.clockIdx + 1) ∧
    (∀ rows (pre : String) (days : Int) (r2 : RespOrErr) (cl : Nat → Int) (ci : Nat),
        selectedNames pre (cl ci - days * 86400) rows ≠ [] →
        (CleanupByAge ⟨[catResp rows, r2], [], cl, ci⟩ pre days).2.trace =
          [listReq, bulkDeleteReq (selectedNames pre (cl ci - days * 86400) rows)]) ∧
    (∀ rows (pre : String) (days : Int) (rest : List RespOrErr)
        (cl : Nat → Int) (ci : Nat),
        selectedNames pre (cl ci - days * 86400) rows = [] →
        CleanupByAge ⟨catResp rows :: rest, [], cl, ci⟩ pre days =
          (.ok (), ⟨rest, [listReq], cl, ci + 1⟩)) := by
  refine ⟨cleanupByAge_clockIdx, ?_, ?_⟩
  · intro rows pre days r2 cl ci hm
    rw [cleanupByAge_run rows pre days r2 [] [] cl ci hm]
    rfl
  · intro rows pre days rest cl ci hm
    simpa using cleanupByAge_empty rows pre days rest [] cl ci hm

/-- C6, witness: catalog `logs-a` (created 1970-01-01), `other` (1970-01-01),
`logs-b` (1971-01-01); with now = 1970-01-01 + 40 days and days = 30 only
`logs-a` qualifies (prefix and strictly older than the cutoff); with
now = 1970-01-01 the selection is empty and the call is a silent no-op. -/
theorem c6_cleanup_by_age_witness :
    ((CleanupByAge ⟨[], [], fun _ => 0, 7⟩ "p" 3).2).clockIdx = 7 + 1 ∧
    (CleanupByAge ⟨[catResp [("logs-a", "1970-01-01T00:00:00Z"),
        ("other", "1970-01-01T00:00:00Z"), ("logs-b", "1971-01-01T00:00:00Z")],
        .ok ⟨200, Jv.null⟩], [], fun _ => 62135596800 + 86400 * 40, 0⟩
        "logs-" 30).2.trace =
      [listReq, bulkDeleteReq (selectedNames "logs-"
        ((fun _ : Nat => 62135596800 + 86400 * 40) 0 - 30 * 86400)
        [("logs-a", "1970-01-01T00:00:00Z"), ("other", "1970-01-01T00:00:00Z"),
          ("logs-b", "1971-01-01T00:00:00Z")])] ∧
    selectedNames "logs-" ((62135596800 + 86400 * 40) - 30 * 86400)
      [("logs-a", "1970-01-01T00:00:00Z"), ("other", "1970-01-01T00:00:00Z"),
        ("logs-b", "1971-01-01T00:00:00Z")] = ["logs-a"] ∧
    CleanupByAge ⟨[catResp [("logs-a", "1970-01-01T00:00:00Z")]], [],
        fun _ => 62135596800, 0⟩ "logs-" 30 =
      (.ok (), ⟨[], [listReq], fun _ => 62135596800, 0 + 1⟩) :=
  ⟨c6_cleanup_by_age.1 _ "p" 3,
   c6_cleanup_by_age.2.1 _ "logs-" 30 _ _ _ (by decide),
   by decide,
   c6_cleanup_by_age.2.2 _ "logs-" 30 [] _ _ (by decide)⟩

/-- C7: on the full success path, the sixth and final request ShrinkIndex
issues is the settings update on the target whose body is
`finalShrinkSettings stg` (part 1); that mapping carries the caller's
`number_of_replicas` value verbatim under `index.number_of_replicas`
(part 2), and sets `index.blocks.write` to JSON null to clear the
write-block (part 3). -/
theorem c7_final_settings :
    (∀ rows (source target : String) (stg : GoMap) (rc rs ro rt ru : HttpResponse)
        (cl : Nat → Int) (ci : Nat),
        matchedNames source rows ≠ [] → rc.status < 400 → rs.status < 400 →
        ro.status < 400 → rt.status < 400 → ru.status < 400 →
        ShrinkIndex ⟨[catResp rows, .ok rc, .ok rs, .ok ro, .ok rt, .ok ru],
            [], cl, ci⟩ source target stg =
          (.ok (), ⟨[], [listReq, bulkCloseReq (matchedNames source rows),
            shrinkReqOf source target stg, openReqOf source, openReqOf target,
            ⟨"PUT", "/" ++ target ++ "/_settings",
              some (Jv.obj [("settings", Jv.obj (finalShrinkSettings stg))])⟩],
            cl, ci⟩)) ∧
    (∀ (stg : GoMap) (v : Jv), mapGet stg "number_of_replicas" = some v →
        mapGet (finalShrinkSettings stg) "index.number_of_replicas" = some v) ∧
    (∀ stg : GoMap,
        mapGet (finalShrinkSettings stg) "index.blocks.write" = some Jv.null) := by
  refine ⟨?_, ?_, fun stg => rfl⟩
  · intro rows source target stg rc rs ro rt ru cl ci hm hrc hrs hro hrt hru
    simpa [settingsReqOf] using
      shrinkIndex_happy rows source target stg rc rs ro rt ru [] cl ci hm hrc hrs hro hrt hru
  · intro stg v hv
    simp [finalShrinkSettings, goIndex, hv, mapGet_cons]

/-- C7, witness: a full success run over a one-index catalog with replica
count 2; the final request body restores it and nulls the write-block. -/
theorem c7_final_settings_witness :
    ShrinkIndex ⟨[catResp [("idx", "")], .ok ⟨200, Jv.null⟩, .ok ⟨200, Jv.null⟩,
        .ok ⟨200, Jv.null⟩, .ok ⟨200, Jv.null⟩, .ok ⟨200, Jv.null⟩], [],
        fun _ => 0, 0⟩ "idx" "t" [("number_of_replicas", Jv.num 2)] =
      (.ok (), ⟨[], [listReq, bulkCloseReq (matchedNames "idx" [("idx", "")]),
        shrinkReqOf "idx" "t" [("number_of_replicas", Jv.num 2)],
        openReqOf "idx", openReqOf "t",
        ⟨"PUT", "/" ++ "t" ++ "/_settings",
          some (Jv.obj [("settings",
            Jv.obj (finalShrinkSettings [("number_of_replicas", Jv.num 2)]))])⟩],
        fun _ => 0, 0⟩) ∧
    mapGet (finalShrinkSettings [("number_of_replicas", Jv.num 2)])
      "index.number_of_replicas" = some (Jv.num 2) ∧
    mapGet (finalShrinkSettings [("number_of_replicas", Jv.num 2)])
      "index.blocks.write" = some Jv.null :=
  ⟨c7_final_settings.1 _ "idx" "t" _ _ _ _ _ _ _ _ (by decide) (by decide) (by decide)
      (by decide) (by decide) (by decide),
   c7_final_settings.2.1 _ (Jv.num 2) rfl,
   c7_final_settings.2.2 _⟩

/-- C8: the settings merge is right-biased.  For Go maps (unique keys, hence
the Nodup hypotheses), a key bound in the override maps to the override's
value, a key bound only in the base maps to the base's value, and a key bound
in neither is absent (`Option.or` of the two lookups states all three at
once).  The spec's concrete instance merge(\x7b"a":1,"b":2\x7d, \x7b"b":3\x7d)
= \x7b"a":1,"b":3\x7d holds literally. -/
theorem c8_merge_right_biased :
    (∀ base ov : GoMap, (base.map Prod.fst).Nodup → (ov.map Prod.fst).Nodup →
        ∀ k, mapGet (mergeSettings base ov) k = (mapGet ov k).or (mapGet base k)) ∧
    mergeSettings [("a", Jv.num 1), ("b", Jv.num 2)] [("b", Jv.num 3)] =
      [("a", Jv.num 1), ("b", Jv.num 3)] := by
  exact ⟨fun base ov hb ho k => mapGet_mergeSettings base ov hb ho k, rfl⟩

/-- C8, witness: the general right-bias applied at the spec's instance, at an
override key, a base-only key, and an absent key. -/
theorem c8_merge_right_biased_witness :
    mapGet (mergeSettings [("a", Jv.num 1), ("b", Jv.num 2)] [("b", Jv.num 3)]) "b" =
      (mapGet [("b", Jv.num 3)] "b").or (mapGet [("a", Jv.num 1), ("b", Jv.num 2)] "b") ∧
    mapGet (mergeSettings [("a", Jv.num 1), ("b", Jv.num 2)] [("b", Jv.num 3)]) "a" =
      (mapGet [("b", Jv.num 3)] "a").or (mapGet [("a", Jv.num 1), ("b", Jv.num 2)] "a") ∧
    mapGet (mergeSettings [("a", Jv.num 1), ("b", Jv.num 2)] [("b", Jv.num 3)]) "c" =
      (mapGet [("b", Jv.num 3)] "c").or (mapGet [("a", Jv.num 1), ("b", Jv.num 2)] "c") :=
  ⟨c8_merge_right_biased.1 _ _ (by decide) (by decide) "b",
   c8_merge_right_biased.1 _ _ (by decide) (by decide) "a",
   c8_merge_right_biased.1 _ _ (by decide) (by decide) "c"⟩

theorem int64Clamp_snd_ne_badSyntax (v : Int) :
    (int64Clamp v).2 ≠ some NumErr.badSyntax := by
  unfold int64Clamp
  split
  · simp
  · split <;> simp

theorem int64Clamp_fst_of_outOfRange (v : Int)
    (h : (int64Clamp v).2 = some NumErr.outOfRange) :
    (int64Clamp v).1 = 2 ^ 63 - 1 ∨ (int64Clamp v).1 = -(2 ^ 63) := by
  unfold int64Clamp at h ⊢
  by_cases h1 : v < -(2 ^ 63)
  · rw [if_pos h1]
    exact Or.inr rfl
  · rw [if_neg h1]
    by_cases h2 : (2 ^ 63 - 1 : Int) < v
    · rw [if_pos h2]
      exact Or.inl rfl
    · rw [if_neg h1, if_neg h2] at h
      simp at h

theorem goParseInt64_badSyntax (str : String)
    (h : (goParseInt64 str).2 = some NumErr.badSyntax) : (goParseInt64 str).1 = 0 := by
  simp only [goParseInt64] at h ⊢
  split at h
  · rename_i hc
    rw [if_pos hc]
  · rename_i hc
    rw [if_neg hc]
    exact absurd h (int64Clamp_snd_ne_badSyntax _)

theorem goParseInt64_outOfRange (str : String)
    (h : (goParseInt64 str).2 = some NumErr.outOfRange) :
    (goParseInt64 str).1 = 2 ^ 63 - 1 ∨ (goParseInt64 str).1 = -(2 ^ 63) := by
  simp only [goParseInt64] at h ⊢
  split at h
  · simp at h
  · rename_i hc
    rw [if_neg hc]
    exact int64Clamp_fst_of_outOfRange _ h

/-- C9, counterexample to the claim as stated: the claim says a
document-count field that fails integer parsing yields DocsCount 0; but for
the out-of-range string "9223372036854775808" (2^63) `strconv.ParseInt` fails
with a range error while returning the clamped bound, and the code keeps that
value — the record decodes to DocsCount 9223372036854775807, not 0. -/
theorem c9_counterexample :
    (goParseInt64 "9223372036854775808").2 = some NumErr.outOfRange ∧
    (ListIndices ⟨[.ok ⟨200, Jv.arr [Jv.obj [("index", Jv.str "i"),
        ("docs.count", Jv.str "9223372036854775808")]]⟩], [], fun _ => 0, 0⟩).1 =
      .ok [⟨"i", "", 9223372036854775807, "", 0⟩] :=
  ⟨by decide, rfl⟩

/-- C9, amended: for every catalog response that decodes successfully,
ListIndices returns one IndexInfo per record (whatever the status code); a
document-count field that fails integer parsing with a syntax error yields
DocsCount 0 (not an operation error), while one that fails with a range error
yields the saturated int64 bound of its sign; a creation-timestamp field that
fails RFC3339 parsing yields the zero time; an empty catalog yields an empty
list and a nil error. -/
theorem c9_amended :
    (∀ (r : HttpResponse) (rest : List RespOrErr) (tr : List HttpRequest)
        (cl : Nat → Int) (ci : Nat) (raws : List RawIndex),
        decodeRawIndices r.body = .ok raws →
        (ListIndices ⟨.ok r :: rest, tr, cl, ci⟩).1 = .ok (raws.map rawToInfo)) ∧
    (∀ raw : RawIndex, (goParseInt64 raw.docsCount).2 = some NumErr.badSyntax →
        (rawToInfo raw).docsCount = 0) ∧
    (∀ raw : RawIndex, (goParseInt64 raw.docsCount).2 = some NumErr.outOfRange →
        (rawToInfo raw).docsCount = 2 ^ 63 - 1 ∨
          (rawToInfo raw).docsCount = -(2 ^ 63)) ∧
    (∀ raw : RawIndex, parseRFC3339 raw.createTime = none →
        (rawToInfo raw).createTime = 0) ∧
    (∀ (r : HttpResponse) (rest : List RespOrErr) (tr : List HttpRequest)
        (cl : Nat → Int) (ci : Nat), r.body = Jv.arr [] →
        (ListIndices ⟨.ok r :: rest, tr, cl, ci⟩).1 = .ok []) := by
  refine ⟨?_, ?_, ?_, ?_, ?_⟩
  · intro r rest tr cl ci raws h
    rw [listIndices_run r rest tr cl ci h]
  · intro raw h
    exact goParseInt64_badSyntax _ h
  · intro raw h
    exact goParseInt64_outOfRange _ h
  · intro raw h
    simp [rawToInfo, h]
  · intro r rest tr cl ci hb
    have hd : decodeRawIndices r.body = .ok [] := by rw [hb]; rfl
    rw [listIndices_run r rest tr cl ci hd]
    rfl

/-- C9, witness: the amended theorem applied at a record with an unparsable
(syntax) count "x", a record with the overflowing count 2^63, a record with
the unparsable timestamp "nope", a two-record catalog, and the empty
catalog. -/
theorem c9_amended_witness :
    (ListIndices ⟨[.ok ⟨200, Jv.arr [Jv.obj [("index", Jv.str "a")],
        Jv.obj [("index", Jv.str "b")]]⟩], [], fun _ => 0, 0⟩).1 =
      .ok ([⟨"a", "", "", "", ""⟩, ⟨"b", "", "", "", ""⟩].map rawToInfo) ∧
    (rawToInfo ⟨"i", "", "x", "", ""⟩).docsCount = 0 ∧
    ((rawToInfo ⟨"i", "", "9223372036854775808", "", ""⟩).docsCount = 2 ^ 63 - 1 ∨
      (rawToInfo ⟨"i", "", "9223372036854775808", "", ""⟩).docsCount = -(2 ^ 63)) ∧
    (rawToInfo ⟨"i", "", "", "", "nope"⟩).createTime = 0 ∧
    (ListIndices ⟨[.ok ⟨200, Jv.arr []⟩], [], fun _ => 0, 0⟩).1 =
      .ok ([] : List IndexInfo) :=
  ⟨c9_amended.1 _ [] [] _ _ [⟨"a", "", "", "", ""⟩, ⟨"b", "", "", "", ""⟩] rfl,
   c9_amended.2.1 _ (by decide),
   c9_amended.2.2.1 _ (by decide),
   c9_amended.2.2.2.1 _ (by decide),
   c9_amended.2.2.2.2 _ [] [] _ _ rfl⟩

/-- C10: ShrinkIndex closes the source by pattern matching it against all
listed index names (it delegates to CloseIndices with `source` as the glob
pattern).  Part 1: when no listed name matches `source` — in particular when
the source index does not exist — ShrinkIndex fails with the wrapped
"failed to close source index: no indices match pattern" error and the trace
is exactly the listing: no shrink request is issued.  Part 2: whatever
response the close request receives, the first two issued requests are the
listing and a single close request naming every matching index, comma-joined
— so a glob source closes all indices it matches, not just the literal
source string. -/
theorem c10_close_via_pattern :
    (∀ rows (source target : String) (stg : GoMap) (rest : List RespOrErr)
        (cl : Nat → Int) (ci : Nat), matchedNames source rows = [] →
        ShrinkIndex ⟨catResp rows :: rest, [], cl, ci⟩ source target stg =
          (.error ("failed to close source index: no indices match pattern: "
              ++ source),
            ⟨rest, [listReq], cl, ci⟩)) ∧
    (∀ rows (source target : String) (stg : GoMap) (r2 : RespOrErr)
        (cl : Nat → Int) (ci : Nat), matchedNames source rows ≠ [] →
        ((ShrinkIndex ⟨[catResp rows, r2], [], cl, ci⟩ source target stg).2.trace).take 2 =
          [listReq, bulkCloseReq (matchedNames source rows)]) := by
  constructor
  · intro rows source target stg rest cl ci hm
    simpa using shrinkIndex_nomatch rows source target stg rest [] cl ci hm
  · intro rows source target stg r2 cl ci hm
    cases r2 with
    | error e =>
        have hc := closeIndices_run rows source (.error e) [] [] cl ci hm
        rw [show respOutcome "failed to close indices: " (.error e) = .error e from rfl]
          at hc
        rw [shrinkIndex_close_err _ _ target stg hc]
        rfl
    | ok rc =>
        by_cases h : 400 ≤ rc.status
        · rw [shrinkIndex_close_fail rows source target stg rc [] cl ci hm h]
          rfl
        · rw [shrinkIndex_submit_trace rows source target stg rc [] cl ci hm
            (Nat.not_le.mp h)]
          rfl

/-- C10, witness: part 1 with a catalog not containing the (nonexistent)
source index; part 2 with the glob source `logs-*` matching two of the three
listed indices, both of which appear in the single close request. -/
theorem c10_close_via_pattern_witness :
    ShrinkIndex ⟨[catResp [("other", "")]], [], fun _ => 0, 0⟩ "missing" "t" [] =
      (.error ("failed to close source index: no indices match pattern: "
          ++ "missing"),
        ⟨[], [listReq], fun _ => 0, 0⟩) ∧
    ((ShrinkIndex ⟨[catResp [("logs-1", ""), ("other", ""), ("logs-2", "")],
        .ok ⟨200, Jv.null⟩], [], fun _ => 0, 0⟩ "logs-*" "t" []).2.trace).take 2 =
      [listReq, bulkCloseReq
        (matchedNames "logs-*" [("logs-1", ""), ("other", ""), ("logs-2", "")])] ∧
    matchedNames "logs-*" [("logs-1", ""), ("other", ""), ("logs-2", "")] =
      ["logs-1", "logs-2"] :=
  ⟨c10_close_via_pattern.1 _ "missing" "t" [] [] _ _ (by decide),
   c10_close_via_pattern.2 _ "logs-*" "t" [] _ _ _ (by decide),
   by decide⟩
